import Mathlib

/-!
Verification development for the document-image extractor (src/main.cpp).

The definitions below are a shallow embedding of the image-processing and
progress-accounting core of the program.  Pixel-level primitives of the
external vision toolkit (adaptive threshold, contours, connected components,
edge detection, OCR) are collaborators: their outputs enter the model as
parameters (the list of contour bounding boxes, the density of a region, the
graphics test of a region, the OCR verdict of a region), exactly the values
the C++ code consumes.  Everything the C++ code computes from those values is
embedded as executable Lean functions.

Machine-arithmetic notes.  Image coordinates and sizes are C ints, modelled
as unbounded integers: all quantities involved are far below any overflow
boundary for the image sizes the program handles.  The C++ code computes the
pad as a cast (int)(width * 0.05) on doubles; for every non-negative integer
width below 2 to the 40th power this equals the integer division width * 5 / 100,
which is how the model writes it.  The area cut-offs rows * cols * 0.01 and
rows * cols * 0.7 are modelled by the exact rational comparisons
100 * area < rows * cols and 10 * area > 7 * (rows * cols); the double
rounding of 0.01 and 0.7 can only shift the comparison on inputs lying
exactly at the boundary, and only in the rejecting direction, so every bound
proved below about rejected candidates also holds for the compiled program.
-/

namespace DocImg

/-- Axis-aligned rectangle, mirroring cv::Rect (x, y, width, height). -/
structure Rect where
  x : ℤ
  y : ℤ
  w : ℤ
  h : ℤ
deriving DecidableEq, Repr

/-- Area of a rectangle, width times height. -/
def Rect.area (r : Rect) : ℤ := r.w * r.h

/-- The four containment inequalities that place a rectangle inside a
cols-by-rows image. -/
def InsideImage (cols rows : ℤ) (r : Rect) : Prop :=
  0 ≤ r.x ∧ 0 ≤ r.y ∧ r.x + r.w ≤ cols ∧ r.y + r.h ≤ rows

instance (cols rows : ℤ) (r : Rect) : Decidable (InsideImage cols rows r) := by
  unfold InsideImage; infer_instance

/-- Padding and clamping of a tight contour bounding box, from extractFigures
(src/main.cpp lines 341-356): pad by (int)(w * 0.05) and (int)(h * 0.05) on
each side, clamp x and y at 0, then shrink width and height so the box ends
inside the image. -/
def padBox (cols rows : ℤ) (b : Rect) : Rect :=
  let padX : ℤ := b.w * 5 / 100
  let padY : ℤ := b.h * 5 / 100
  let x0 := b.x - padX
  let x := if x0 < 0 then 0 else x0
  let y0 := b.y - padY
  let y := if y0 < 0 then 0 else y0
  let w0 := b.w + 2 * padX
  let w := if x + w0 > cols then cols - x else w0
  let h0 := b.h + 2 * padY
  let h := if y + h0 > rows then rows - y else h0
  ⟨x, y, w, h⟩

/-- The contour filter of extractFigures (src/main.cpp lines 331-339):
keep a tight box iff its area is at least 1 percent and at most 70 percent of
the image area and both dimensions are at least 100 pixels. -/
def passesFilter (cols rows : ℤ) (b : Rect) : Bool :=
  let area := b.w * b.h
  let total := rows * cols
  !(100 * area < total) && !(10 * area > 7 * total) &&
    !(b.w < 100) && !(b.h < 100)

/-- A figure candidate, mirroring struct FigureCandidate (src/main.cpp lines
219-223): the padded box, the text density of the padded region, and the area
of the tight box. -/
structure FigureCandidate where
  bbox : Rect
  textDensity : ℚ
  area : ℤ
deriving DecidableEq, Repr

/-- Candidate built from one surviving contour box: the stored bounding box is
the padded clamped box, the density is measured on the padded region, and the
stored area is the area of the tight box (src/main.cpp lines 356-360). -/
def mkCandidate (cols rows : ℤ) (density : Rect → ℚ) (b : Rect) : FigureCandidate :=
  let p := padBox cols rows b
  ⟨p, density p, b.w * b.h⟩

/-- The candidate generation of extractFigures (src/main.cpp lines 329-366):
filter the contour boxes, build a candidate from each survivor, and sort the
candidates by descending stored (tight) area.  The density of a region is a
collaborator (calculateTextDensity) and enters as a parameter.  std::sort
with the comparator a.area > b.area produces some nonincreasing-by-area
permutation; it is modelled by insertion sort on the same key. -/
def extractCandidates (cols rows : ℤ) (density : Rect → ℚ) (contourBoxes : List Rect) :
    List FigureCandidate :=
  List.insertionSort (fun a b => b.area ≤ a.area)
    ((contourBoxes.filter (passesFilter cols rows)).map (mkCandidate cols rows density))

/-- The pure-text shortcut (src/main.cpp lines 309-312): density above 10. -/
def isLikelyPureTextCV (textDensity : ℚ) : Bool :=
  textDensity > 10

/-- The per-candidate decision of extractFigures (src/main.cpp lines 368-402).
useOCR combines the useOCR flag and the non-null Tesseract handle checked at
the call site; ocrConfirmsText is the verdict isTextBlock would return on the
region. -/
def classify (textDensity : ℚ) (hasGraphics : Bool) (useOCR : Bool)
    (ocrConfirmsText : Bool) : Bool :=
  if textDensity > 20 then hasGraphics
  else if textDensity < 2 then true
  else if isLikelyPureTextCV textDensity then false
  else if useOCR && ocrConfirmsText then false
  else hasGraphics

/-- The accepted-figure list of extractFigures: classify each candidate in
sorted order and keep the stored (padded) boxes of the accepted ones.  The
graphics test and the OCR verdict are collaborators entering as parameters on
the candidate region. -/
def acceptedFigures (cols rows : ℤ) (density : Rect → ℚ) (graphics : Rect → Bool)
    (useOCR : Bool) (ocrConfirms : Rect → Bool) (contourBoxes : List Rect) : List Rect :=
  (extractCandidates cols rows density contourBoxes).filterMap (fun c =>
    if classify c.textDensity (graphics c.bbox) useOCR (ocrConfirms c.bbox) then
      some c.bbox
    else none)

/-! Work units and progress accounting. -/

/-- Outcome of the external jobs for one DJVU page inside
extract_djvu_images (src/main.cpp lines 663-724): the djvuextract call can
exit non-zero, the extracted BG44 chunk can be missing or at most 200 bytes,
or the page proceeds to the ddjvu render. -/
inductive DjvuPageOutcome where
  | extractFailed
  | chunkMissingOrSmall
  | extracted
deriving DecidableEq, Repr

/-- Number of increments of the shared processed counter performed by the
parallel-mode worker lambda for one DJVU page (src/main.cpp lines 678-701):
the lambda returns before the increment when djvuextract fails and when the
chunk is missing or undersized, and increments once otherwise. -/
def djvuPageIncrementsParallel : DjvuPageOutcome → ℕ
  | .extractFailed => 0
  | .chunkMissingOrSmall => 0
  | .extracted => 1

/-- Number of increments performed by the serial branch for one DJVU page
(src/main.cpp lines 703-723): the increment sits after the conditional block
and runs on every iteration, whatever the outcome. -/
def djvuPageIncrementsSerial : DjvuPageOutcome → ℕ
  | _ => 1

/-! Output figure identities (serial versus parallel classification). -/

/-- One per-image classification job of
process_extracted_images_with_opencv: the base name of the source image
(path with directory and extension stripped) and the accepted figure boxes
that extractFigures returns for it.  The figure list is a pure function of
the image content and the run configuration, so it is carried on the job. -/
structure ImageJob where
  baseName : String
  figures : List Rect
deriving DecidableEq, Repr

/-- Output file names written by process_single_image (src/main.cpp lines
432-436): one file per accepted figure, named from the source image base name
and the 1-based position of the figure in the list for that image. -/
def figureFileNames (j : ImageJob) : List String :=
  (List.range j.figures.length).map
    (fun i => j.baseName ++ "_figure_" ++ toString (i + 1) ++ ".png")

/-- Output identities of the serial loop (src/main.cpp lines 490-493): jobs
run one at a time in directory-listing order. -/
def serialOutputs (jobs : List ImageJob) : List String :=
  jobs.flatMap figureFileNames

/-- Output identities of the parallel loop (src/main.cpp lines 474-489):
every job runs in its own thread and jobs complete in an arbitrary order,
modelled by an arbitrary permutation of the job list. -/
def parallelOutputs (completionOrder : List ImageJob) : List String :=
  completionOrder.flatMap figureFileNames

/-! The work estimator. -/

/-- Detected file type, the return value of detect_file_type (src/main.cpp
lines 768-793). -/
inductive FType where
  | pdf
  | djvu
  | zipContainer
  | docLegacy
  | unknown
deriving DecidableEq, Repr

/-- The capability flags the estimator reads (global support booleans set by
the startup dependency probe). -/
structure Caps where
  pdfRender : Bool
  djvuTools : Bool
  docConvert : Bool
  epubTools : Bool
deriving DecidableEq, Repr

/-- One input document as the estimator sees it: detected type and the probed
page count (1 for non-paginated types, per src/main.cpp lines 1020-1024). -/
structure DocInfo where
  ftype : FType
  pages : ℕ
deriving DecidableEq, Repr

/-- The disjunction guarding the pages-times-2 cost in start_cb (src/main.cpp
lines 1027-1029): a direct render path for PDF or DJVU, or the
convert-then-render fallback available for any type. -/
def renderPathAvailable (caps : Caps) (t : FType) : Bool :=
  (t == .pdf && caps.pdfRender) || (t == .djvu && caps.djvuTools) ||
    ((caps.docConvert || caps.epubTools) && caps.pdfRender)

/-- Per-document work-unit cost of start_cb (src/main.cpp lines 1026-1042). -/
def docCost (useCV : Bool) (caps : Caps) (t : FType) (pages : ℕ) : ℕ :=
  if useCV then
    if renderPathAvailable caps t then pages * 2 else 6
  else if t == .pdf then 1
  else if t == .djvu then pages
  else 1

/-- The grand total of start_cb: per-document costs summed, then floored at 1
(src/main.cpp lines 1013-1045). -/
def totalWorkUnits (useCV : Bool) (caps : Caps) (docs : List DocInfo) : ℕ :=
  let t := (docs.map (fun d => docCost useCV caps d.ftype d.pages)).sum
  if t = 0 then 1 else t

/-- The reported progress percentage of update_ui_cb (src/main.cpp lines
927-930): processed over total times 100, clamped at 100.  The C float
arithmetic is modelled exactly over the rationals. -/
def reportedPct (processed total : ℕ) : ℚ :=
  let pct := (processed : ℚ) / (total : ℚ) * 100
  if pct > 100 then 100 else pct

/-! OCR confirmation and word counting. -/

/-- Whitespace as classified by the default C++ stream locale: space, tab,
newline, vertical tab, form feed, carriage return. -/
def isCppSpace (c : Char) : Bool :=
  c = ' ' || c = '\t' || c = '\n' || c = '\x0b' || c = '\x0c' || c = '\r'

/-- The stream-extraction loop of countWords (src/main.cpp lines 274-280),
written as a scan that tracks whether the previous character was inside a
word: each maximal run of non-whitespace characters is counted once. -/
def countWordsAux : List Char → Bool → ℕ
  | [], _ => 0
  | c :: cs, inWord =>
    if isCppSpace c then countWordsAux cs false
    else (if inWord then 0 else 1) + countWordsAux cs true

/-- Word count of a string, the model of countWords. -/
def countWords (text : String) : ℕ :=
  countWordsAux text.toList false

/-- Modelled from the spec: splitting a character list on whitespace,
keeping (possibly empty) segments between separators. -/
def splitWS : List Char → List (List Char)
  | [] => [[]]
  | c :: cs =>
    if isCppSpace c then [] :: splitWS cs
    else (splitWS cs).modifyHead (fun t => c :: t)

/-- Modelled from the spec: the number of whitespace-separated tokens of the
text, the non-empty segments of the whitespace split. -/
def wordCountSpec (text : String) : ℕ :=
  ((splitWS text.toList).filter (fun t => t ≠ [])).length

/-- One if the character list starts inside a word (first character is not
whitespace), zero otherwise; bridges the two word-counting definitions. -/
def startsWord : List Char → ℕ
  | [] => 0
  | c :: _ => if isCppSpace c then 0 else 1

/-- The text-block verdict of isTextBlock (src/main.cpp lines 282-307):
false on a null Tesseract handle, and otherwise true iff the mean confidence
exceeds 70 and the word count of the extracted text exceeds 25.  The mean
confidence and the extracted text are the OCR collaborator outputs. -/
def isTextBlock (tessOk : Bool) (conf : ℤ) (text : String) : Bool :=
  if tessOk then decide (70 < conf) && decide (25 < countWords text) else false

/-! Channel handling of the raster inputs. -/

/-- A raster image as the channel logic sees it: channel count and size. -/
structure RasterImage where
  channels : ℕ
  cols : ℤ
  rows : ℤ
deriving DecidableEq, Repr

/-- cv::cvtColor with COLOR_BGR2GRAY: defined on 3- or 4-channel inputs,
where it produces a single-channel image of the same size, and an OpenCV
error (modelled as none) on any other channel count. -/
def cvtColorBGR2GRAY (img : RasterImage) : Option RasterImage :=
  if img.channels = 3 ∨ img.channels = 4 then some ⟨1, img.cols, img.rows⟩
  else none

/-- The first step of extractFigures (src/main.cpp lines 317-318): an
unconditional cvtColor BGR-to-gray call on the input image. -/
def extractFiguresGrayStep (img : RasterImage) : Option RasterImage :=
  cvtColorBGR2GRAY img

/-- The conditional grayscale step of the helper functions
calculateTextDensity, hasGraphicalContent and isTextBlock (src/main.cpp
lines 227-231, 261-265, 285-290): convert only when the region has 3
channels, otherwise use the region as it is. -/
def helperGrayStep (img : RasterImage) : RasterImage :=
  if img.channels = 3 then ⟨1, img.cols, img.rows⟩ else img

end DocImg

namespace DocImg

/-- Membership in the candidate list: every candidate is built by mkCandidate
from some contour box that passes the filter. -/
theorem mem_extractCandidates {cols rows : ℤ} {density : Rect → ℚ}
    {boxes : List Rect} {c : FigureCandidate}
    (hc : c ∈ extractCandidates cols rows density boxes) :
    ∃ b ∈ boxes, passesFilter cols rows b = true ∧
      c = mkCandidate cols rows density b := by
  unfold extractCandidates at hc
  rw [List.mem_insertionSort] at hc
  obtain ⟨b, hb, rfl⟩ := List.mem_map.mp hc
  obtain ⟨hbmem, hbf⟩ := List.mem_filter.mp hb
  exact ⟨b, hbmem, hbf, rfl⟩

/-- The padded clamped box always satisfies the four containment
inequalities, for any tight box. -/
theorem padBox_inside (cols rows : ℤ) (b : Rect) :
    InsideImage cols rows (padBox cols rows b) := by
  unfold padBox InsideImage
  dsimp only
  generalize b.w * 5 / 100 = padX
  generalize b.h * 5 / 100 = padY
  split_ifs <;> omega

/-- C1: the classifier applies its decision rules in the stated order with
first match winning: density above 20 accepts iff the region has graphical
content; density below 2 accepts unconditionally; density above 10 (reached
only when at most 20) rejects unconditionally; in the remaining band from 2
to 10 an enabled and confirming OCR rejects, otherwise the graphics test
decides; and the seven quoted concrete evaluations hold. -/
theorem classifier_rule_order (d : ℚ) (g u o : Bool) :
    (20 < d → classify d g u o = g) ∧
    (d < 2 → ¬ 20 < d → classify d g u o = true) ∧
    (10 < d → d ≤ 20 → ¬ d < 2 → classify d g u o = false) ∧
    (2 ≤ d → d ≤ 10 → classify d g u o = (!(u && o) && g)) ∧
    classify 25 true u o = true ∧
    classify 25 false u o = false ∧
    classify (3 / 2) g u o = true ∧
    classify 15 g u o = false ∧
    classify 5 g true true = false ∧
    classify 5 true true false = true ∧
    classify 5 false false o = false := by
  unfold classify isLikelyPureTextCV
  refine ⟨?_, ?_, ?_, ?_, ?_, ?_, ?_, ?_, ?_, ?_, ?_⟩
  · intro h1; rw [if_pos h1]
  · intro h2 h1; rw [if_neg h1, if_pos h2]
  · intro h10 h20 h2
    rw [if_neg (by simpa using h20), if_neg h2, if_pos (by simpa using h10)]
  · intro h2 h10
    rw [if_neg (by simp; linarith), if_neg (by simpa using h2),
      if_neg (by simp; exact h10)]
    cases u <;> cases o <;> simp
  · norm_num
  · norm_num
  · norm_num
  · norm_num
  · norm_num
  · norm_num
  · norm_num

/-- Concrete instantiation of the classifier rule-order theorem: the density 25
band with graphics accepts. -/
theorem classifier_rule_order_witness : classify 25 true false false = true :=
  (classifier_rule_order 25 true false false).1 (by norm_num)

/-- C5: every emitted candidate carries the padded clamped box of some contour
box and lies within the parent image, and the quoted 1000 by 1000 scenario
with tight box (100,100,300,300) and density 1 yields exactly one accepted
figure with stored box (85,85,330,330). -/
theorem candidate_box_padded_and_inside (cols rows : ℤ) (density : Rect → ℚ)
    (boxes : List Rect) :
    (∀ c ∈ extractCandidates cols rows density boxes,
      InsideImage cols rows c.bbox ∧ ∃ b ∈ boxes, c.bbox = padBox cols rows b) ∧
    acceptedFigures 1000 1000 (fun _ => 1) (fun _ => true) false (fun _ => false)
        [⟨100, 100, 300, 300⟩] = [⟨85, 85, 330, 330⟩] := by
  constructor
  · intro c hc
    obtain ⟨b, hb, hf, rfl⟩ := mem_extractCandidates hc
    exact ⟨padBox_inside cols rows b, b, hb, rfl⟩
  · decide

/-- Concrete instantiation of the padding theorem on the scenario input. -/
theorem candidate_box_padded_and_inside_witness :
    InsideImage 1000 1000 (Rect.mk 85 85 330 330) ∧
      ∃ b ∈ [Rect.mk 100 100 300 300],
        Rect.mk 85 85 330 330 = padBox 1000 1000 b :=
  (candidate_box_padded_and_inside 1000 1000 (fun _ => 1)
    [⟨100, 100, 300, 300⟩]).1 ⟨⟨85, 85, 330, 330⟩, 1, 90000⟩ (by decide)

/-- C6: every emitted candidate derives from a contour box whose tight area is
at least 1 percent and at most 70 percent of the image area and whose width
and height are at least 100 pixels; boxes failing the filter never reach the
candidate list. -/
theorem candidate_filter_bounds (cols rows : ℤ) (density : Rect → ℚ)
    (boxes : List Rect) :
    ∀ c ∈ extractCandidates cols rows density boxes, ∃ b ∈ boxes,
      c.area = b.w * b.h ∧ c.bbox = padBox cols rows b ∧
      rows * cols ≤ 100 * (b.w * b.h) ∧ 10 * (b.w * b.h) ≤ 7 * (rows * cols) ∧
      100 ≤ b.w ∧ 100 ≤ b.h := by
  intro c hc
  obtain ⟨b, hb, hf, rfl⟩ := mem_extractCandidates hc
  unfold passesFilter at hf
  simp only [Bool.and_eq_true, Bool.not_eq_true', decide_eq_false_iff_not,
    not_lt] at hf
  exact ⟨b, hb, rfl, rfl, hf.1.1.1, hf.1.1.2, hf.1.2, hf.2⟩

/-- Concrete instantiation of the filter-bounds theorem. -/
theorem candidate_filter_bounds_witness :
    ∃ b ∈ [Rect.mk 0 0 200 200],
      (40000 : ℤ) = b.w * b.h ∧ Rect.mk 0 0 220 220 = padBox 1000 1000 b ∧
      (1000 : ℤ) * 1000 ≤ 100 * (b.w * b.h) ∧
      10 * (b.w * b.h) ≤ 7 * ((1000 : ℤ) * 1000) ∧
      100 ≤ b.w ∧ 100 ≤ b.h :=
  candidate_filter_bounds 1000 1000 (fun _ => 0) [⟨0, 0, 200, 200⟩]
    ⟨⟨0, 0, 220, 220⟩, 0, 40000⟩ (by decide)

/-- C10: the candidate list is sorted by descending stored area, the stored
area of each candidate is the tight (pre-padding) area of its contour box
while the stored box is the padded clamped one, and on a concrete input the
resulting order disagrees with the order of the padded boxes own areas
because clamping shrinks the padding of the larger tight box. -/
theorem sort_uses_tight_area (cols rows : ℤ) (density : Rect → ℚ)
    (boxes : List Rect) :
    List.Sorted (fun a b : FigureCandidate => b.area ≤ a.area)
        (extractCandidates cols rows density boxes) ∧
    (∀ c ∈ extractCandidates cols rows density boxes, ∃ b ∈ boxes,
      passesFilter cols rows b = true ∧ c.area = b.w * b.h ∧
      c.bbox = padBox cols rows b) ∧
    (∃ c₁ c₂ : FigureCandidate,
      extractCandidates 1000 1000 (fun _ => 0)
          [⟨600, 600, 400, 400⟩, ⟨100, 100, 398, 398⟩] = [c₁, c₂] ∧
      c₂.area < c₁.area ∧ c₁.bbox.area < c₂.bbox.area) := by
  refine ⟨?_, ?_, ?_⟩
  · haveI : IsTotal FigureCandidate (fun a b => b.area ≤ a.area) :=
      ⟨fun a b => le_total b.area a.area⟩
    haveI : IsTrans FigureCandidate (fun a b => b.area ≤ a.area) :=
      ⟨fun _ _ _ h1 h2 => le_trans h2 h1⟩
    exact List.sorted_insertionSort _ _
  · intro c hc
    obtain ⟨b, hb, hf, rfl⟩ := mem_extractCandidates hc
    exact ⟨b, hb, hf, rfl, rfl⟩
  · exact ⟨⟨⟨580, 580, 420, 420⟩, 0, 160000⟩, ⟨⟨81, 81, 436, 436⟩, 0, 158404⟩,
      by decide, by decide, by decide⟩

/-- Concrete instantiation of the tight-area sorting theorem. -/
theorem sort_uses_tight_area_witness :
    ∃ b ∈ [Rect.mk 50 50 500 500],
      passesFilter 2000 2000 b = true ∧ (250000 : ℤ) = b.w * b.h ∧
      Rect.mk 25 25 550 550 = padBox 2000 2000 b :=
  (sort_uses_tight_area 2000 2000 (fun _ => 0) [⟨50, 50, 500, 500⟩]).2.1
    ⟨⟨25, 25, 550, 550⟩, 0, 250000⟩ (by decide)

/-- C2 exhibit: the serial DJVU loop increments the processed counter exactly
once per page whatever the page outcome, but the parallel worker lambda
performs zero increments for a page whose djvuextract call fails or whose
extracted chunk is missing or undersized, contradicting the once-per-unit
accounting that the rest of the pipeline and the serial branch implement. -/
theorem djvu_failed_page_counting :
    (∀ outcomes : List DjvuPageOutcome,
      (outcomes.map djvuPageIncrementsSerial).sum = outcomes.length) ∧
    djvuPageIncrementsSerial .extractFailed = 1 ∧
    djvuPageIncrementsParallel .extractFailed = 0 ∧
    djvuPageIncrementsParallel .chunkMissingOrSmall = 0 := by
  refine ⟨?_, rfl, rfl, rfl⟩
  intro outcomes
  induction outcomes with
  | nil => rfl
  | cons o os ih => simp [djvuPageIncrementsSerial, ih, Nat.add_comm]

/-- C3: for any completion order of the per-image classification jobs (any
permutation of the job list), the emitted output file identities are a
permutation of the serial-mode output, hence the same set of names, the same
count and the same per-image 1-based indices: names are derived from each
source image and its own figure index, never from a shared counter. -/
theorem serial_parallel_same_outputs (jobs order : List ImageJob)
    (h : List.Perm order jobs) :
    List.Perm (parallelOutputs order) (serialOutputs jobs) ∧
    (∀ s, s ∈ parallelOutputs order ↔ s ∈ serialOutputs jobs) ∧
    (parallelOutputs order).length = (serialOutputs jobs).length := by
  have hp : List.Perm (parallelOutputs order) (serialOutputs jobs) :=
    List.Perm.flatMap_right figureFileNames h
  exact ⟨hp, fun s => hp.mem_iff, hp.length_eq⟩

/-- Concrete instantiation of the serial-parallel output theorem on two jobs
completing in reversed order. -/
theorem serial_parallel_same_outputs_witness :
    List.Perm
      (parallelOutputs [⟨"b", [⟨0, 0, 5, 5⟩]⟩, ⟨"a", [⟨0, 0, 5, 5⟩]⟩])
      (serialOutputs [⟨"a", [⟨0, 0, 5, 5⟩]⟩, ⟨"b", [⟨0, 0, 5, 5⟩]⟩]) :=
  (serial_parallel_same_outputs
    [⟨"a", [⟨0, 0, 5, 5⟩]⟩, ⟨"b", [⟨0, 0, 5, 5⟩]⟩]
    [⟨"b", [⟨0, 0, 5, 5⟩]⟩, ⟨"a", [⟨0, 0, 5, 5⟩]⟩]
    (List.Perm.swap _ _ _)).1

/-- C4: the estimator total is the per-document cost sum floored at 1, hence
at least 1 even on an empty or fully unsupported input set, and the
per-document cost is pages times 2 with vision mode on and a render path
available, the constant 6 with vision mode on otherwise, and with vision mode
off 1 for PDF, the page count for DJVU, and 1 for every other type. -/
theorem work_estimator_total (useCV : Bool) (caps : Caps) (docs : List DocInfo) :
    totalWorkUnits useCV caps docs
        = max 1 ((docs.map (fun d => docCost useCV caps d.ftype d.pages)).sum) ∧
    1 ≤ totalWorkUnits useCV caps docs ∧
    totalWorkUnits useCV caps [] = 1 ∧
    (∀ t p, renderPathAvailable caps t = true → docCost true caps t p = p * 2) ∧
    (∀ t p, renderPathAvailable caps t = false → docCost true caps t p = 6) ∧
    (∀ p, docCost false caps .pdf p = 1) ∧
    (∀ p, docCost false caps .djvu p = p) ∧
    (∀ t p, t ≠ FType.pdf → t ≠ FType.djvu → docCost false caps t p = 1) := by
  refine ⟨?_, ?_, rfl, ?_, ?_, fun p => rfl, fun p => rfl, ?_⟩
  · unfold totalWorkUnits
    dsimp only
    split <;> omega
  · unfold totalWorkUnits
    dsimp only
    split <;> omega
  · intro t p hr; simp [docCost, hr]
  · intro t p hr; simp [docCost, hr]
  · intro t p h1 h2
    cases t <;> first | exact absurd rfl h1 | exact absurd rfl h2 | rfl

/-- Concrete instantiation of the estimator theorem: a renderable PDF of 3
pages costs 6 units in vision mode, and the empty input set totals 1. -/
theorem work_estimator_total_witness :
    docCost true ⟨true, true, true, true⟩ .pdf 3 = 3 * 2 ∧
      totalWorkUnits true ⟨true, true, true, true⟩ [] = 1 :=
  ⟨(work_estimator_total true ⟨true, true, true, true⟩ []).2.2.2.1 .pdf 3 rfl,
    (work_estimator_total true ⟨true, true, true, true⟩ []).2.2.1⟩

/-- C7: the reported percentage is processed over total times 100 clamped at
100, lies in the interval from 0 to 100, and is monotone in the processed
counter, which is reset once at run start and afterwards only incremented. -/
theorem progress_pct_clamped_monotone (total : ℕ) (h : 1 ≤ total) :
    (∀ p, 0 ≤ reportedPct p total ∧ reportedPct p total ≤ 100) ∧
    (∀ p q, p ≤ q → reportedPct p total ≤ reportedPct q total) ∧
    (∀ p, reportedPct p total = min ((p : ℚ) / (total : ℚ) * 100) 100) := by
  have htot : (0 : ℚ) < (total : ℚ) := by exact_mod_cast h
  have hmin : ∀ p : ℕ, reportedPct p total = min ((p : ℚ) / (total : ℚ) * 100) 100 := by
    intro p
    unfold reportedPct
    dsimp only
    split_ifs with hgt
    · exact (min_eq_right hgt.le).symm
    · exact (min_eq_left (not_lt.mp hgt)).symm
  have hnn : ∀ p : ℕ, 0 ≤ (p : ℚ) / (total : ℚ) * 100 := by
    intro p
    positivity
  refine ⟨?_, ?_, hmin⟩
  · intro p
    rw [hmin p]
    exact ⟨le_min (hnn p) (by norm_num), min_le_right _ _⟩
  · intro p q hpq
    rw [hmin p, hmin q]
    have hc : (p : ℚ) ≤ (q : ℚ) := by exact_mod_cast hpq
    have : (p : ℚ) / (total : ℚ) * 100 ≤ (q : ℚ) / (total : ℚ) * 100 := by
      gcongr
    exact min_le_min this le_rfl

/-- Concrete instantiation of the percentage theorem at 2 of 4 units. -/
theorem progress_pct_clamped_monotone_witness :
    0 ≤ reportedPct 2 4 ∧ reportedPct 2 4 ≤ 100 :=
  (progress_pct_clamped_monotone 4 (by norm_num)).1 2

/-- The whitespace split of a character list is never the empty list of
segments. -/
theorem splitWS_ne_nil (l : List Char) : splitWS l ≠ [] := by
  induction l with
  | nil => simp [splitWS]
  | cons c cs ih =>
    unfold splitWS
    split
    · simp
    · cases h : splitWS cs with
      | nil => exact absurd h ih
      | cons s ss => simp [h]

/-- Starting the stream scan outside a word counts exactly one more word than
starting it inside one when the list opens with a word character. -/
theorem countWordsAux_flag (l : List Char) :
    countWordsAux l false = countWordsAux l true + startsWord l := by
  cases l with
  | nil => rfl
  | cons c cs =>
    simp only [countWordsAux, startsWord]
    split <;> simp [Nat.add_comm]

/-- The head segment of the whitespace split is empty exactly when the list
does not open with a word character. -/
theorem splitWS_head_startsWord (l : List Char) (s : List Char)
    (ss : List (List Char)) (h : splitWS l = s :: ss) :
    startsWord l = if s = [] then 0 else 1 := by
  cases l with
  | nil =>
    unfold splitWS at h
    cases h
    rfl
  | cons c cs =>
    unfold splitWS at h
    by_cases hc : isCppSpace c
    · rw [if_pos hc] at h
      cases h
      simp [startsWord, hc]
    · rw [if_neg hc] at h
      cases hsp : splitWS cs with
      | nil => exact absurd hsp (splitWS_ne_nil cs)
      | cons s0 ss0 =>
        rw [hsp] at h
        simp only [List.modifyHead_cons] at h
        cases h
        simp [startsWord, hc]

/-- The stream-extraction word count equals the number of non-empty segments
of the whitespace split. -/
theorem countWordsAux_eq_splitWS (l : List Char) :
    countWordsAux l false = ((splitWS l).filter (fun t => t ≠ [])).length := by
  induction l with
  | nil => rfl
  | cons c cs ih =>
    by_cases hc : isCppSpace c
    · simp only [countWordsAux, splitWS, if_pos hc]
      rw [ih]
      simp
    · simp only [countWordsAux, splitWS, if_neg hc, Bool.false_eq_true, if_false]
      cases hsp : splitWS cs with
      | nil => exact absurd hsp (splitWS_ne_nil cs)
      | cons s0 ss0 =>
        have hflag := countWordsAux_flag cs
        have hstart := splitWS_head_startsWord cs s0 ss0 hsp
        rw [hsp] at ih
        simp only [List.modifyHead_cons]
        rw [List.filter_cons_of_pos (by simp)]
        simp only [List.length_cons, ne_eq, decide_not]
        by_cases hs0 : s0 = []
        · rw [if_pos hs0] at hstart
          simp [hs0] at ih
          omega
        · rw [if_neg hs0] at hstart
          simp [hs0] at ih
          omega

/-- C8: the OCR confirmation classifies a region as a text block iff the mean
confidence exceeds 70 and the word count exceeds 25, and the word count of
the extracted text is the number of its whitespace-separated tokens. -/
theorem ocr_text_block_rule (tessOk : Bool) (conf : ℤ) (text : String) :
    (tessOk = true →
      (isTextBlock tessOk conf text = true ↔ 70 < conf ∧ 25 < countWords text)) ∧
    countWords text = wordCountSpec text := by
  constructor
  · rintro rfl
    simp [isTextBlock]
  · simpa [countWords, wordCountSpec] using countWordsAux_eq_splitWS text.toList

/-- Concrete instantiation of the OCR rule on a 26-word extraction with mean
confidence 80. -/
theorem ocr_text_block_rule_witness :
    isTextBlock true 80
      "w w w w w w w w w w w w w w w w w w w w w w w w w w" = true :=
  ((ocr_text_block_rule true 80
      "w w w w w w w w w w w w w w w w w w w w w w w w w w").1 rfl).mpr
    ⟨by norm_num, by decide⟩

/-- C9 counterexample: the first step of the candidate generator is an
unconditional BGR-to-gray conversion, so on an already single-channel input
it raises the toolkit channel-count error instead of skipping the
conversion; the claimed convert-only-if-needed behaviour fails there. -/
theorem grayscale_input_conversion_error :
    extractFiguresGrayStep ⟨1, 640, 480⟩ = none := rfl

/-- C9 amended: the conditional grayscale step of the helper metrics leaves a
single-channel region untouched, while the candidate generator itself
converts unconditionally and is defined exactly on 3- or 4-channel inputs;
its only caller always supplies 3-channel images (imread with
IMREAD_COLOR). -/
theorem grayscale_step_amended (img : RasterImage) :
    (img.channels = 1 → helperGrayStep img = img) ∧
    ((extractFiguresGrayStep img).isSome ↔
      img.channels = 3 ∨ img.channels = 4) ∧
    (img.channels = 3 →
      extractFiguresGrayStep img = some ⟨1, img.cols, img.rows⟩) := by
  refine ⟨?_, ?_, ?_⟩
  · intro h1
    unfold helperGrayStep
    rw [if_neg (by omega)]
  · unfold extractFiguresGrayStep cvtColorBGR2GRAY
    split_ifs with hch
    · simp [hch]
    · simp [hch]
  · intro h3
    unfold extractFiguresGrayStep cvtColorBGR2GRAY
    rw [if_pos (Or.inl h3)]

/-- Concrete instantiation of the amended grayscale theorem on a 1-channel
and a 3-channel image. -/
theorem grayscale_step_amended_witness :
    helperGrayStep ⟨1, 640, 480⟩ = ⟨1, 640, 480⟩ ∧
      extractFiguresGrayStep ⟨3, 640, 480⟩ = some ⟨1, 640, 480⟩ :=
  ⟨(grayscale_step_amended ⟨1, 640, 480⟩).1 rfl,
    (grayscale_step_amended ⟨3, 640, 480⟩).2.2 rfl⟩

end DocImg
